import Mathlib

/-!
# Verification of `arbitrage_bot.py`

A shallow embedding of the arbitrage bot's core logic in Lean 4, together
with theorems checking the natural-language specification against it.

The source file contains duplicated definitions (`check_arbitrage_opportunity`,
`build_and_send_tx` and the `__main__` block each appear twice); following the
spec's design notes, the embedding models the second, threshold-gated
definitions, which are the ones in effect when the module has finished loading.

Modelling conventions:
* Python floats are modelled as exact rationals (`ℚ`); the claims checked here
  are about control flow, formula structure and order relations, which are
  unaffected by the idealisation.
* Python code that can raise is modelled in `Except PyErr`; in particular
  division by zero is a raised `PyErr.zeroDivision`, mirroring Python's
  `ZeroDivisionError`, rather than Lean's `x / 0 = 0` convention.
* External collaborators (the RPC node, the routers, the chain) are modelled
  as explicit environment values: the current network gas price at each point
  where the code reads it, the router responses, and the submitter outcome of
  each transaction.
-/

/-- Python exceptions that the embedded code can raise. -/
inductive PyErr where
  | zeroDivision
deriving DecidableEq

/-- The two DEX routers the bot trades against. -/
inductive VenueId where
  | uniswap
  | crystal
deriving DecidableEq

/-- `MAX_GAS_PRICE = 200` — maximum gas price in gwei. -/
def MAX_GAS_PRICE : ℚ := 200

/-- `MIN_PROFIT_MON = 0.015` — minimum profit threshold in MON. -/
def MIN_PROFIT_MON : ℚ := 0.015

/-- `SLIPPAGE = 0.995` — slippage tolerance factor. -/
def SLIPPAGE : ℚ := 0.995

/-- `MAX_GAS = 300000` — maximum gas limit per transaction. -/
def MAX_GAS : ℚ := 300000

/-- `get_optimized_gas_price`: reads the network's current gas price
(`web3.eth.gas_price`, in wei), converts it to gwei, and caps it at
`MAX_GAS_PRICE`.  The ambient network rate is passed explicitly. -/
def get_optimized_gas_price (networkGasPriceWei : ℚ) : ℚ :=
  min (networkGasPriceWei / 10 ^ 9) MAX_GAS_PRICE

/-- `get_dynamic_swap_amount`: tiered position sizer, price deviation to a
swap amount in wei-of-MON. -/
def get_dynamic_swap_amount (price_diff : ℚ) : ℤ :=
  if price_diff > 0.2 then 5 * 10 ^ 18
  else if price_diff > 0.1 then 3 * 10 ^ 18
  else 2 * 10 ^ 18

/-- Python division on floats: raises `ZeroDivisionError` on a zero
denominator, otherwise exact division. -/
def pydiv (a b : ℚ) : Except PyErr ℚ :=
  if b = 0 then .error .zeroDivision else .ok (a / b)

/-- The dictionary returned by `calculate_mon_profit`. -/
structure ProfitInfo where
  gas_cost_usdc : ℚ
  gas_cost_mon : ℚ
  mon_buyback : ℚ
  profit_mon : ℚ
  gas_price_used : ℚ
deriving DecidableEq

/-- `calculate_mon_profit(sell_price_usdc, buy_price_usdc, amount_mon,
gas_price_gwei)`.  The function ignores its `gas_price_gwei` argument and
re-reads the network rate (`networkGasPriceWei` here) through
`get_optimized_gas_price`.  Each Python division whose denominator can be
zero is modelled with `pydiv`; the two divisions happen in source order
(first the MON conversion dividing by `sell_price_usdc / 5`, then the
buyback dividing by `buy_price_usdc`). -/
def calculate_mon_profit (networkGasPriceWei sell_price_usdc buy_price_usdc
    amount_mon gas_price_gwei : ℚ) : Except PyErr ProfitInfo :=
  let _ := gas_price_gwei
  let actual_gas_price := get_optimized_gas_price networkGasPriceWei
  let gas_cost_wei := MAX_GAS * 2 * (actual_gas_price * 10 ^ 9)
  let gas_cost_usdc := gas_cost_wei / 10 ^ 18 * (sell_price_usdc / 5)
  match pydiv gas_cost_usdc (sell_price_usdc / 5) with
  | .error e => .error e
  | .ok gas_cost_mon =>
    match pydiv (amount_mon * (sell_price_usdc - gas_cost_usdc)) buy_price_usdc with
    | .error e => .error e
    | .ok mon_buyback =>
      .ok { gas_cost_usdc := gas_cost_usdc
            gas_cost_mon := gas_cost_mon
            mon_buyback := mon_buyback
            profit_mon := mon_buyback - amount_mon
            gas_price_used := actual_gas_price }

/-- Outcome of handing one built transaction to the submitter collaborator
(`Account.sign_transaction`, `web3.eth.send_raw_transaction`,
`web3.eth.wait_for_transaction_receipt`), distinguishing at which stage it
failed. -/
inductive TxResult where
  | signFail
  | sendFail
  | confirmFail
  | confirmed (txHash gasUsed : ℕ)
deriving DecidableEq

/-- Whether the raw transaction reached the chain (`send_raw_transaction`
returned without raising). -/
def TxResult.wasSubmitted : TxResult → Bool
  | .signFail => false
  | .sendFail => false
  | .confirmFail => true
  | .confirmed _ _ => true

/-- Whether a confirmation receipt was observed for the transaction. -/
def TxResult.wasConfirmed : TxResult → Bool
  | .confirmed _ _ => true
  | _ => false

/-- `build_and_send_tx` (second definition, line 182): signs, submits and
waits for the receipt inside one `try`; any exception at any stage yields
`(None, 0)`, success yields `(tx_hash, gasUsed)`. -/
def build_and_send_tx : TxResult → Option ℕ × ℕ
  | .confirmed h g => (some h, g)
  | _ => (none, 0)

/-- Which leg of the two-leg attempt a swap call belongs to. -/
inductive LegId where
  | leg1
  | leg2
deriving DecidableEq

/-- One call into a router's swap function, as handed to the submitter:
which leg, which router, the swap amount (leg 1: the MON `value` sold;
leg 2: the exact MON `amount_out` bought back), the bound on the other side
(leg 1: `amount_out_min`; leg 2: `amount_in_max`), the `deadline` passed to
the router, the wall-clock time at submission, and the gas price set on the
transaction (in wei). -/
structure SwapCall where
  leg : LegId
  router : VenueId
  swapAmountWei : ℤ
  boundAmount : ℤ
  deadline : ℤ
  submitTime : ℤ
  gasPriceWei : ℚ
deriving DecidableEq

/-- Python `int()` applied to a float: truncation toward zero. -/
def pyint (q : ℚ) : ℤ :=
  if 0 ≤ q then ⌊q⌋ else ⌈q⌉

/-- The ambient state one leg executes against: the network gas price read
while building its transaction, the wall-clock time at its submission, and
the submitter's outcome for it. -/
structure LegEnv where
  networkGasPriceWei : ℚ
  time : ℤ
  result : TxResult
deriving DecidableEq

/-- `execute_exact_eth_for_tokens`: builds the `swapExactETHForTokens`
transaction (MON → USDC) with the current clamped gas price and hands it to
`build_and_send_tx`.  Returns the `(tx_hash, gas_used)` pair together with
the `SwapCall` record of what was handed to the router. -/
def execute_exact_eth_for_tokens (router : VenueId) (amount_out_min : ℤ)
    (deadline : ℤ) (amount_in : ℤ) (env : LegEnv) : (Option ℕ × ℕ) × SwapCall :=
  let gas_price := get_optimized_gas_price env.networkGasPriceWei * 10 ^ 9
  (build_and_send_tx env.result,
   { leg := .leg1, router := router, swapAmountWei := amount_in,
     boundAmount := amount_out_min, deadline := deadline,
     submitTime := env.time, gasPriceWei := gas_price })

/-- `execute_tokens_for_exact_eth`: builds the `swapTokensForExactETH`
transaction (USDC → MON) with the current clamped gas price and hands it to
`build_and_send_tx`. -/
def execute_tokens_for_exact_eth (router : VenueId) (amount_out : ℤ)
    (amount_in_max : ℤ) (deadline : ℤ) (env : LegEnv) : (Option ℕ × ℕ) × SwapCall :=
  let gas_price := get_optimized_gas_price env.networkGasPriceWei * 10 ^ 9
  (build_and_send_tx env.result,
   { leg := .leg2, router := router, swapAmountWei := amount_out,
     boundAmount := amount_in_max, deadline := deadline,
     submitTime := env.time, gasPriceWei := gas_price })

/-- Ambient state of one `execute_arbitrage` attempt: `startTime` is
`int(time.time())` at function entry, and each leg has its own environment
(leg 2's `time` is when leg 2 is submitted, i.e. after leg 1's receipt was
awaited, so it can lie arbitrarily far after `startTime`). -/
structure ExecEnv where
  startTime : ℤ
  leg1 : LegEnv
  leg2 : LegEnv
deriving DecidableEq

/-- `execute_arbitrage(high_price_router, low_price_router, price_diff_usdc)`:
computes one deadline (`int(time.time()) + 60`) at entry, re-derives the swap
amount from its `price_diff_usdc` argument, runs leg 1, and only when leg 1
returned a transaction hash runs leg 2 with the same `deadline` value.
Returns the source's boolean together with the list of swap calls handed to
the routers, in order. -/
def execute_arbitrage (high_price_router low_price_router : VenueId)
    (price_diff_usdc : ℚ) (env : ExecEnv) : Bool × List SwapCall :=
  let deadline := env.startTime + 60
  let swap_amount := get_dynamic_swap_amount price_diff_usdc
  let r1 := execute_exact_eth_for_tokens high_price_router
    (pyint ((swap_amount : ℚ) * price_diff_usdc * SLIPPAGE)) deadline swap_amount env.leg1
  match r1.1.1 with
  | some _ =>
    let r2 := execute_tokens_for_exact_eth low_price_router swap_amount
      (pyint ((swap_amount : ℚ) * price_diff_usdc / SLIPPAGE)) deadline env.leg2
    match r2.1.1 with
    | some _ => (true, [r1.2, r2.2])
    | none => (false, [r1.2, r2.2])
  | none => (false, [r1.2])

/-- A router's response to `getAmountsOut(amount_in, path).call()`: either
the returned amounts list, or the call raised (revert, transport error,
malformed response). -/
inductive QuoteResp where
  | ok (amounts : List ℤ)
  | exn
deriving DecidableEq

/-- `get_price`: returns `amounts_out[-1]`; every exception — including the
`IndexError` from an empty amounts list — is caught and turned into `0`.
Total by construction: it never propagates an exception. -/
def get_price : QuoteResp → ℤ
  | .ok amounts =>
    match amounts.getLast? with
    | some a => a
    | none => 0
  | .exn => 0

/-- The decision `check_arbitrage_opportunity` reaches: skip, or execute —
in the source the execute branch directly calls `execute_arbitrage`, passing
the *higher per-5-MON price* as its `price_diff_usdc` argument; the call's
result is recorded here. -/
inductive Decision where
  | skip
  | executed (high low : VenueId) (price_arg : ℚ) (result : Bool × List SwapCall)
deriving DecidableEq

/-- `true` exactly on the execute branch. -/
def Decision.isExecute : Decision → Bool
  | .skip => false
  | .executed _ _ _ _ => true

/-- The swap calls performed by the decision's execution (empty on skip). -/
def Decision.execCalls : Decision → List SwapCall
  | .skip => []
  | .executed _ _ _ r => r.2

/-- What one evaluation cycle computed: the profit dictionary, the swap
amount selected by the position sizer from the observed deviation, and the
decision reached. -/
structure CycleOutcome where
  profit_info : ProfitInfo
  swap_amount : ℤ
  decision : Decision
deriving DecidableEq

/-- Ambient state of one evaluation cycle: the network gas price read at the
top of `check_arbitrage_opportunity`, both routers' quote responses for
`getAmountsOut(5 * 10^18, [WMON, USDC])`, the gas price re-read inside
`calculate_mon_profit`, and the execution environment used if the cycle
decides to trade. -/
structure CycleEnv where
  checkNetGasWei : ℚ
  uniswapResp : QuoteResp
  crystalResp : QuoteResp
  profitNetGasWei : ℚ
  execEnv : ExecEnv
deriving DecidableEq

/-- `check_arbitrage_opportunity` (second definition, line 254): quotes both
venues, normalizes, sizes the position from the deviation, computes the
profit estimate (which can raise on a zero divisor), and when the profit
clears `MIN_PROFIT_MON` calls `execute_arbitrage` with the higher price as
argument; otherwise skips. -/
def check_arbitrage_opportunity (env : CycleEnv) : Except PyErr CycleOutcome :=
  let current_gas_price := get_optimized_gas_price env.checkNetGasWei
  let price_uniswap := get_price env.uniswapResp
  let price_crystal := get_price env.crystalResp
  let price_uniswap_usdc : ℚ := (price_uniswap : ℚ) / 10 ^ 6
  let price_crystal_usdc : ℚ := (price_crystal : ℚ) / 10 ^ 6
  let price_diff_usdc := |price_uniswap_usdc - price_crystal_usdc| / 5
  let swap_amount := get_dynamic_swap_amount price_diff_usdc
  let profitRes :=
    if price_uniswap_usdc > price_crystal_usdc then
      calculate_mon_profit env.profitNetGasWei price_uniswap_usdc price_crystal_usdc
        ((swap_amount : ℚ) / 10 ^ 18) current_gas_price
    else
      calculate_mon_profit env.profitNetGasWei price_crystal_usdc price_uniswap_usdc
        ((swap_amount : ℚ) / 10 ^ 18) current_gas_price
  match profitRes with
  | .error e => .error e
  | .ok profit_info =>
    if profit_info.profit_mon ≥ MIN_PROFIT_MON then
      if price_uniswap_usdc > price_crystal_usdc then
        .ok { profit_info := profit_info, swap_amount := swap_amount,
              decision := .executed .uniswap .crystal price_uniswap_usdc
                (execute_arbitrage .uniswap .crystal price_uniswap_usdc env.execEnv) }
      else
        .ok { profit_info := profit_info, swap_amount := swap_amount,
              decision := .executed .crystal .uniswap price_crystal_usdc
                (execute_arbitrage .crystal .uniswap price_crystal_usdc env.execEnv) }
    else
      .ok { profit_info := profit_info, swap_amount := swap_amount,
            decision := .skip }

/-- The poll loop of the second `__main__` block: `try:` … `while True:
check_arbitrage_opportunity(); sleep(20)` … `except`.  The `try/except`
wraps the *whole* loop, so the first exception raised inside a cycle exits
the loop and the process ends after printing `Critical error`.  The input
list is the sequence of cycle environments the outside world produces; its
exhaustion models the external interrupt (`KeyboardInterrupt`).  Returns
(number of cycles started, whether the process was terminated by an in-cycle
error). -/
def pollLoop : List CycleEnv → ℕ × Bool
  | [] => (0, false)
  | env :: rest =>
    match check_arbitrage_opportunity env with
    | .ok _ =>
      let r := pollLoop rest
      (r.1 + 1, r.2)
    | .error _ => (1, true)

/-- A healthy execution environment: zero network gas price, both legs
confirmed, leg 2 submitted 5 s after the attempt started. -/
def execEnvA : ExecEnv :=
  { startTime := 0,
    leg1 := { networkGasPriceWei := 0, time := 0, result := .confirmed 1 21000 },
    leg2 := { networkGasPriceWei := 0, time := 5, result := .confirmed 2 21000 } }

/-- An execution environment in which leg 1's confirmation took 100 s, so
leg 2 is submitted 100 s after the attempt started. -/
def execEnvLate : ExecEnv :=
  { startTime := 0,
    leg1 := { networkGasPriceWei := 0, time := 0, result := .confirmed 1 21000 },
    leg2 := { networkGasPriceWei := 0, time := 100, result := .confirmed 2 21000 } }

/-- A cycle in which the Crystal quote call raised (transport error) while
Uniswap quoted 2000 USDC for 5 MON. -/
def cycleEnvCrash : CycleEnv :=
  { checkNetGasWei := 0, uniswapResp := .ok [5 * 10 ^ 18, 2000 * 10 ^ 6],
    crystalResp := .exn, profitNetGasWei := 0, execEnv := execEnvA }

/-- A cycle in which Crystal genuinely quoted 0 USDC out for 5 MON in. -/
def cycleEnvZeroQuote : CycleEnv :=
  { checkNetGasWei := 0, uniswapResp := .ok [5 * 10 ^ 18, 2000 * 10 ^ 6],
    crystalResp := .ok [5 * 10 ^ 18, 0], profitNetGasWei := 0, execEnv := execEnvA }

/-- A cycle with a profitable spread: Uniswap quotes 2010 and Crystal 2000
USDC for 5 MON, with zero gas price. -/
def cycleEnvTrade : CycleEnv :=
  { checkNetGasWei := 0, uniswapResp := .ok [5 * 10 ^ 18, 2010 * 10 ^ 6],
    crystalResp := .ok [5 * 10 ^ 18, 2000 * 10 ^ 6], profitNetGasWei := 0,
    execEnv := execEnvA }

/-- A cycle with both venues quoting the same price (no opportunity). -/
def cycleEnvSkip : CycleEnv :=
  { checkNetGasWei := 0, uniswapResp := .ok [5 * 10 ^ 18, 2000 * 10 ^ 6],
    crystalResp := .ok [5 * 10 ^ 18, 2000 * 10 ^ 6], profitNetGasWei := 0,
    execEnv := execEnvA }

/-- A cycle whose deviation (0.02) selects the smallest size tier but whose
higher price (10 USDC per 5 MON) lands in the largest tier: Uniswap quotes
10 USDC and Crystal 9.9 USDC for 5 MON, with zero gas price. -/
def cycleEnvMismatch : CycleEnv :=
  { checkNetGasWei := 0, uniswapResp := .ok [5 * 10 ^ 18, 10 ^ 7],
    crystalResp := .ok [5 * 10 ^ 18, 9900000], profitNetGasWei := 0,
    execEnv := execEnvA }

/-- What `cycleEnvSkip` evaluates to: zero deviation, smallest tier,
zero profit, skip. -/
def skipOutcome : CycleOutcome :=
  { profit_info := { gas_cost_usdc := 0, gas_cost_mon := 0, mon_buyback := 2,
                     profit_mon := 0, gas_price_used := 0 },
    swap_amount := 2 * 10 ^ 18,
    decision := .skip }

/-- What `cycleEnvTrade` evaluates to: deviation 2, largest tier, profit
1/40 MON, execute on (uniswap high, crystal low). -/
def tradeOutcome : CycleOutcome :=
  { profit_info := { gas_cost_usdc := 0, gas_cost_mon := 0, mon_buyback := 201 / 40,
                     profit_mon := 1 / 40, gas_price_used := 0 },
    swap_amount := 5 * 10 ^ 18,
    decision := .executed .uniswap .crystal 2010
      (execute_arbitrage .uniswap .crystal 2010 execEnvA) }

/-- What `cycleEnvMismatch` evaluates to: deviation 1/50, smallest tier
(2 MON), profit 2/99 MON, execute — and the execute call receives the high
price 10 as its `price_diff_usdc` argument. -/
def mismatchOutcome : CycleOutcome :=
  { profit_info := { gas_cost_usdc := 0, gas_cost_mon := 0, mon_buyback := 200 / 99,
                     profit_mon := 2 / 99, gas_price_used := 0 },
    swap_amount := 2 * 10 ^ 18,
    decision := .executed .uniswap .crystal 10
      (execute_arbitrage .uniswap .crystal 10 execEnvA) }

/-- When neither divisor vanishes, `calculate_mon_profit` succeeds and its
result fields are the source's formulas. -/
lemma calculate_mon_profit_eq (net sell buy amt g : ℚ)
    (hs : sell ≠ 0) (hb : buy ≠ 0) :
    calculate_mon_profit net sell buy amt g =
    .ok { gas_cost_usdc :=
            MAX_GAS * 2 * (get_optimized_gas_price net * 10 ^ 9) / 10 ^ 18 * (sell / 5),
          gas_cost_mon :=
            MAX_GAS * 2 * (get_optimized_gas_price net * 10 ^ 9) / 10 ^ 18 * (sell / 5)
              / (sell / 5),
          mon_buyback :=
            amt * (sell - MAX_GAS * 2 * (get_optimized_gas_price net * 10 ^ 9) / 10 ^ 18
              * (sell / 5)) / buy,
          profit_mon :=
            amt * (sell - MAX_GAS * 2 * (get_optimized_gas_price net * 10 ^ 9) / 10 ^ 18
              * (sell / 5)) / buy - amt,
          gas_price_used := get_optimized_gas_price net } := by
  have h5 : sell / 5 ≠ 0 := div_ne_zero hs (by norm_num)
  unfold calculate_mon_profit pydiv
  simp only [if_neg h5, if_neg hb]

/-- Evaluating the cycle in which the Crystal quote call raised: the crash
propagates out of the profit computation. -/
lemma check_crash_eval :
    check_arbitrage_opportunity cycleEnvCrash = .error .zeroDivision := by
  unfold check_arbitrage_opportunity calculate_mon_profit pydiv get_price
    get_optimized_gas_price get_dynamic_swap_amount MAX_GAS MAX_GAS_PRICE cycleEnvCrash
  norm_num

/-- Evaluating the cycle in which Crystal genuinely quoted zero: the same
crash. -/
lemma check_zeroQuote_eval :
    check_arbitrage_opportunity cycleEnvZeroQuote = .error .zeroDivision := by
  unfold check_arbitrage_opportunity calculate_mon_profit pydiv get_price
    get_optimized_gas_price get_dynamic_swap_amount MAX_GAS MAX_GAS_PRICE cycleEnvZeroQuote
  norm_num

/-- Evaluating the no-opportunity cycle (equal prices): a clean skip. -/
lemma check_skip_eval :
    check_arbitrage_opportunity cycleEnvSkip = .ok skipOutcome := by
  unfold check_arbitrage_opportunity calculate_mon_profit pydiv get_price
    get_optimized_gas_price get_dynamic_swap_amount MAX_GAS MAX_GAS_PRICE
    MIN_PROFIT_MON cycleEnvSkip skipOutcome
  norm_num

/-- Evaluating the profitable cycle (2010 vs 2000): execute. -/
lemma check_trade_eval :
    check_arbitrage_opportunity cycleEnvTrade = .ok tradeOutcome := by
  unfold check_arbitrage_opportunity calculate_mon_profit pydiv get_price
    get_optimized_gas_price get_dynamic_swap_amount MAX_GAS MAX_GAS_PRICE
    MIN_PROFIT_MON cycleEnvTrade tradeOutcome
  norm_num

/-- Evaluating the tier-mismatch cycle (10 vs 9.9): execute, with the high
price passed where `execute_arbitrage` expects the deviation. -/
lemma check_mismatch_eval :
    check_arbitrage_opportunity cycleEnvMismatch = .ok mismatchOutcome := by
  have habs : |(1 : ℚ) / 10| = 1 / 10 := abs_of_nonneg (by norm_num)
  unfold check_arbitrage_opportunity calculate_mon_profit pydiv get_price
    get_optimized_gas_price get_dynamic_swap_amount MAX_GAS MAX_GAS_PRICE
    MIN_PROFIT_MON cycleEnvMismatch mismatchOutcome
  norm_num [habs]

/-- C1: the spec requires that a zero quote or a failed quote call make the
evaluation return Skip without invoking the cost/profit computation.  The
code has no such guard: `get_price` converts a failed call into the quote
`0`, and with a healthy Uniswap quote (2000 USDC per 5 MON) and a failed —
or genuinely zero — Crystal quote, `check_arbitrage_opportunity` still
invokes `calculate_mon_profit`, whose buyback step divides by the zero buy
price and raises `ZeroDivisionError` instead of skipping. -/
theorem zero_quote_reaches_profit_division :
    get_price .exn = 0 ∧
    check_arbitrage_opportunity cycleEnvCrash = .error .zeroDivision ∧
    check_arbitrage_opportunity cycleEnvZeroQuote = .error .zeroDivision :=
  ⟨rfl, check_crash_eval, check_zeroQuote_eval⟩

/-- C10: `get_price` is total (it is a Lean function into `ℤ`, so it never
raises): on a successful router response it returns the last element of the
amounts list, on an exception it returns 0, and a failed call is therefore
indistinguishable from a genuine zero quote at its interface. -/
theorem get_price_total_zero_on_failure :
    (∀ (amounts : List ℤ) (a : ℤ), amounts.getLast? = some a →
        get_price (.ok amounts) = a) ∧
    get_price .exn = 0 ∧
    (∀ amounts : List ℤ, amounts.getLast? = some 0 →
        get_price (.ok amounts) = get_price .exn) := by
  refine ⟨?_, rfl, ?_⟩
  · intro amounts a h
    simp only [get_price, h]
  · intro amounts h
    simp only [get_price, h]

/-- C10 witness: a concrete healthy response and the value it quotes. -/
theorem get_price_total_zero_on_failure_inst :
    ([5 * 10 ^ 18, 2000 * 10 ^ 6] : List ℤ).getLast? = some (2000 * 10 ^ 6) ∧
    get_price (.ok [5 * 10 ^ 18, 2000 * 10 ^ 6]) = 2000 * 10 ^ 6 :=
  ⟨rfl, get_price_total_zero_on_failure.1 _ _ rfl⟩

/-- C8: the position sizer is a three-tier step function with strict lower
bounds — deviation above 0.2 selects 5 MON, above 0.1 selects 3 MON,
otherwise 2 MON — and is monotone: a smaller deviation never selects a
larger size. -/
theorem swap_amount_tiers_monotone :
    (∀ d : ℚ, d > 0.2 → get_dynamic_swap_amount d = 5 * 10 ^ 18) ∧
    (∀ d : ℚ, ¬d > 0.2 → d > 0.1 → get_dynamic_swap_amount d = 3 * 10 ^ 18) ∧
    (∀ d : ℚ, ¬d > 0.2 → ¬d > 0.1 → get_dynamic_swap_amount d = 2 * 10 ^ 18) ∧
    (∀ d1 d2 : ℚ, d1 < d2 →
        get_dynamic_swap_amount d1 ≤ get_dynamic_swap_amount d2) := by
  refine ⟨?_, ?_, ?_, ?_⟩
  · intro d h
    unfold get_dynamic_swap_amount
    rw [if_pos h]
  · intro d h1 h2
    unfold get_dynamic_swap_amount
    rw [if_neg h1, if_pos h2]
  · intro d h1 h2
    unfold get_dynamic_swap_amount
    rw [if_neg h1, if_neg h2]
  · intro d1 d2 h
    unfold get_dynamic_swap_amount
    split_ifs <;> linarith

/-- C8 witness: two concrete deviations in different tiers. -/
theorem swap_amount_tiers_monotone_inst :
    (0 : ℚ) < 1 ∧ get_dynamic_swap_amount 0 ≤ get_dynamic_swap_amount 1 :=
  ⟨by norm_num, swap_amount_tiers_monotone.2.2.2 0 1 (by norm_num)⟩

/-- C9: for positive prices with the sell price above the buy price, the
profit estimate is exactly the source's formulas: the wei gas cost is the
per-leg gas budget (`MAX_GAS`) times 2 legs times the clamped fee rate, the
buyback is `size * (high_price - gas_cost_in_quote_unit) / low_price`, and
the profit is `buyback - size`. -/
theorem profit_formula_matches_spec (net sell buy amt g : ℚ)
    (hb : 0 < buy) (hlt : buy < sell) :
    ∃ info, calculate_mon_profit net sell buy amt g = .ok info ∧
      info.gas_cost_usdc =
        MAX_GAS * 2 * (get_optimized_gas_price net * 10 ^ 9) / 10 ^ 18 * (sell / 5) ∧
      info.mon_buyback = amt * (sell - info.gas_cost_usdc) / buy ∧
      info.profit_mon = info.mon_buyback - amt ∧
      info.gas_price_used = get_optimized_gas_price net :=
  ⟨_, calculate_mon_profit_eq net sell buy amt g (ne_of_gt (hb.trans hlt)) (ne_of_gt hb),
    rfl, rfl, rfl, rfl⟩

/-- C9 witness: concrete prices 2010 over 2000, size 5, zero network rate. -/
theorem profit_formula_matches_spec_inst :
    (0 : ℚ) < 2000 ∧ (2000 : ℚ) < 2010 ∧
    ∃ info, calculate_mon_profit 0 2010 2000 5 0 = .ok info ∧
      info.gas_cost_usdc =
        MAX_GAS * 2 * (get_optimized_gas_price 0 * 10 ^ 9) / 10 ^ 18 * (2010 / 5) ∧
      info.mon_buyback = 5 * (2010 - info.gas_cost_usdc) / 2000 ∧
      info.profit_mon = info.mon_buyback - 5 ∧
      info.gas_price_used = get_optimized_gas_price 0 :=
  ⟨by norm_num, by norm_num,
    profit_formula_matches_spec 0 2010 2000 5 0 (by norm_num) (by norm_num)⟩

/-- C7: the fee rate the bot works with is always the network's current
rate (converted to gwei) clamped by `min` to the `MAX_GAS_PRICE` ceiling:
that clamped value is what the cost estimation reports as the rate it used,
and each leg's transaction carries exactly the clamped rate (of the network
state at that leg's build time) converted to wei, so the gas price paid
never exceeds the ceiling. -/
theorem gas_price_clamped_to_ceiling :
    (∀ net : ℚ, get_optimized_gas_price net = min (net / 10 ^ 9) MAX_GAS_PRICE ∧
        get_optimized_gas_price net ≤ MAX_GAS_PRICE) ∧
    (∀ net sell buy amt g info,
        calculate_mon_profit net sell buy amt g = .ok info →
        info.gas_price_used = get_optimized_gas_price net) ∧
    (∀ (high low : VenueId) (pd : ℚ) (env : ExecEnv),
        ∀ c ∈ (execute_arbitrage high low pd env).2,
          (c.leg = .leg1 →
            c.gasPriceWei = get_optimized_gas_price env.leg1.networkGasPriceWei * 10 ^ 9) ∧
          (c.leg = .leg2 →
            c.gasPriceWei = get_optimized_gas_price env.leg2.networkGasPriceWei * 10 ^ 9) ∧
          c.gasPriceWei ≤ MAX_GAS_PRICE * 10 ^ 9) := by
  have hle : ∀ net : ℚ, get_optimized_gas_price net ≤ MAX_GAS_PRICE :=
    fun net => min_le_right _ _
  refine ⟨fun net => ⟨rfl, hle net⟩, ?_, ?_⟩
  · intro net sell buy amt g info h
    by_cases h5 : sell / 5 = 0
    · simp only [calculate_mon_profit, pydiv, if_pos h5] at h
      exact Except.noConfusion h
    · by_cases hbz : buy = 0
      · simp only [calculate_mon_profit, pydiv, if_neg h5, if_pos hbz] at h
        exact Except.noConfusion h
      · simp only [calculate_mon_profit, pydiv, if_neg h5, if_neg hbz,
          Except.ok.injEq] at h
        rw [← h]
  · intro high low pd env c hc
    have hmul : ∀ net : ℚ,
        get_optimized_gas_price net * 10 ^ 9 ≤ MAX_GAS_PRICE * 10 ^ 9 :=
      fun net => mul_le_mul_of_nonneg_right (hle net) (by norm_num)
    rcases env with ⟨st, ⟨g1, t1, r1⟩, ⟨g2, t2, r2⟩⟩
    cases r1 <;> cases r2 <;>
      simp only [execute_arbitrage, execute_exact_eth_for_tokens,
        execute_tokens_for_exact_eth, build_and_send_tx,
        List.mem_cons, List.mem_singleton, List.not_mem_nil, or_false] at hc <;>
      rcases hc with hc | hc <;>
      (try subst hc) <;>
      simp_all

/-- C7 witness: the estimator run at concrete inputs reports the clamped
rate, and a network spike of 300 gwei is capped at the 200 gwei ceiling. -/
theorem gas_price_clamped_to_ceiling_inst :
    ({ gas_cost_usdc := 0, gas_cost_mon := 0, mon_buyback := 201 / 40,
       profit_mon := 1 / 40, gas_price_used := 0 } : ProfitInfo).gas_price_used =
      get_optimized_gas_price 0 ∧
    get_optimized_gas_price (300 * 10 ^ 9) ≤ MAX_GAS_PRICE := by
  constructor
  · exact gas_price_clamped_to_ceiling.2.1 0 2010 2000 5 0 _
      (by unfold calculate_mon_profit pydiv get_optimized_gas_price MAX_GAS MAX_GAS_PRICE
          norm_num)
  · exact (gas_price_clamped_to_ceiling.1 (300 * 10 ^ 9)).2

/-- C2: leg 2 appears among an attempt's swap calls only when leg 1's
transaction was submitted and its confirmation receipt was observed (the
submitter returned `confirmed`); and whenever `build_and_send_tx` reported
failure for leg 1, the attempt ends with leg 1 as its only swap call and
returns `False`. -/
theorem leg2_submitted_only_after_leg1_confirmed (high low : VenueId) (pd : ℚ)
    (env : ExecEnv) :
    ((∃ c ∈ (execute_arbitrage high low pd env).2, c.leg = .leg2) →
        env.leg1.result.wasSubmitted = true ∧ env.leg1.result.wasConfirmed = true) ∧
    ((build_and_send_tx env.leg1.result).1 = none →
        (execute_arbitrage high low pd env).2.map SwapCall.leg = [.leg1] ∧
        (execute_arbitrage high low pd env).1 = false) := by
  rcases env with ⟨st, ⟨g1, t1, r1⟩, ⟨g2, t2, r2⟩⟩
  cases r1 <;> cases r2 <;>
    simp [execute_arbitrage, execute_exact_eth_for_tokens,
      execute_tokens_for_exact_eth, build_and_send_tx,
      TxResult.wasSubmitted, TxResult.wasConfirmed]

/-- C2 witness: in the healthy environment the trace does contain leg 2,
and leg 1 was indeed submitted and confirmed. -/
theorem leg2_submitted_only_after_leg1_confirmed_inst :
    execEnvA.leg1.result.wasSubmitted = true ∧
    execEnvA.leg1.result.wasConfirmed = true :=
  (leg2_submitted_only_after_leg1_confirmed .uniswap .crystal 2010 execEnvA).1
    (by simp [execute_arbitrage, execute_exact_eth_for_tokens,
          execute_tokens_for_exact_eth, build_and_send_tx, execEnvA])

/-- C3: whenever the evaluation completes with a decision, that decision is
Execute exactly when the computed profit estimate reaches
`MIN_PROFIT_MON`, and Skip otherwise. -/
theorem execute_iff_profit_ge_threshold (env : CycleEnv) (r : CycleOutcome)
    (h : check_arbitrage_opportunity env = .ok r) :
    r.decision.isExecute = true ↔ MIN_PROFIT_MON ≤ r.profit_info.profit_mon := by
  simp only [check_arbitrage_opportunity] at h
  split at h
  · exact Except.noConfusion h
  · rename_i profit_info heq
    split at h
    · rename_i hpro
      split at h <;> (cases h; simp [Decision.isExecute, hpro])
    · rename_i hpro
      cases h
      simp only [Decision.isExecute, Bool.false_eq_true, false_iff]
      exact hpro

/-- C3 witness: the profitable 2010/2000 cycle executes, and its profit
1/40 MON clears the threshold. -/
theorem execute_iff_profit_ge_threshold_inst :
    check_arbitrage_opportunity cycleEnvTrade = .ok tradeOutcome ∧
    (tradeOutcome.decision.isExecute = true ↔
      MIN_PROFIT_MON ≤ tradeOutcome.profit_info.profit_mon) :=
  ⟨check_trade_eval,
    execute_iff_profit_ge_threshold cycleEnvTrade tradeOutcome check_trade_eval⟩

/-- C4 counterexample: the claim says no in-cycle error terminates the
process.  But with a first cycle whose evaluation raises (failed Crystal
quote, hence division by zero) followed by a perfectly healthy cycle, the
loop terminates with the error flag after one cycle — the healthy second
cycle (which on its own evaluates cleanly to a skip) is never reached,
because the `try/except` wraps the whole loop. -/
theorem inCycle_error_terminates_pollLoop :
    pollLoop [cycleEnvCrash, cycleEnvSkip] = (1, true) ∧
    check_arbitrage_opportunity cycleEnvSkip = .ok skipOutcome := by
  refine ⟨?_, check_skip_eval⟩
  simp [pollLoop, check_crash_eval]

/-- C4 amended: errors that the cycle's own code catches (quote failures,
submission failures) do not terminate the loop, but any exception escaping
a cycle's evaluation terminates the process at that cycle — the handler
wraps the whole loop, so the loop never continues past an uncaught in-cycle
error; a cycle that completes without raising always continues. -/
theorem pollLoop_stops_at_first_error (env : CycleEnv) (rest : List CycleEnv) :
    ((∃ e, check_arbitrage_opportunity env = .error e) →
        pollLoop (env :: rest) = (1, true)) ∧
    (∀ r, check_arbitrage_opportunity env = .ok r →
        pollLoop (env :: rest) = ((pollLoop rest).1 + 1, (pollLoop rest).2)) := by
  constructor
  · rintro ⟨e, he⟩
    simp [pollLoop, he]
  · intro r hr
    simp [pollLoop, hr]

/-- C4 witness: the crashing cycle alone terminates the loop by error. -/
theorem pollLoop_stops_at_first_error_inst :
    pollLoop [cycleEnvCrash] = (1, true) :=
  (pollLoop_stops_at_first_error cycleEnvCrash []).1 ⟨.zeroDivision, check_crash_eval⟩

/-- C5 counterexample: the claim says each leg's deadline is strictly in
the future at that leg's submission and that leg 2's deadline is freshly
computed from leg-2 start time.  In an attempt starting at t = 0 in which
leg 1's confirmation took 100 s, both legs carry the single deadline 60
computed at attempt start: leg 2 is submitted at t = 100 with a deadline of
60 — already in the past — and 60 is not leg-2 start + 60 = 160. -/
theorem leg2_deadline_stale_example :
    ((execute_arbitrage .uniswap .crystal (2 / 5) execEnvLate).2.map
        fun c => (c.leg, c.deadline, c.submitTime)) =
      [(.leg1, 60, 0), (.leg2, 60, 100)] ∧
    ¬((100 : ℤ) < 60) ∧ (60 : ℤ) ≠ 100 + 60 := by
  refine ⟨?_, by norm_num, by norm_num⟩
  simp [execute_arbitrage, execute_exact_eth_for_tokens,
    execute_tokens_for_exact_eth, build_and_send_tx, execEnvLate]

/-- C5 amended: a single deadline, equal to attempt start time + 60 s, is
computed once and passed unchanged to both legs (leg 2 reuses leg 1's
value rather than recomputing from leg-2 start time), and a leg's deadline
is strictly after its submission time exactly when that submission happens
less than 60 s after attempt start. -/
theorem deadline_computed_once_at_start (high low : VenueId) (pd : ℚ)
    (env : ExecEnv) :
    ∀ c ∈ (execute_arbitrage high low pd env).2,
      c.deadline = env.startTime + 60 ∧
      (c.submitTime < env.startTime + 60 → c.submitTime < c.deadline) := by
  intro c hc
  rcases env with ⟨st, ⟨g1, t1, r1⟩, ⟨g2, t2, r2⟩⟩
  cases r1 <;> cases r2 <;>
    simp only [execute_arbitrage, execute_exact_eth_for_tokens,
      execute_tokens_for_exact_eth, build_and_send_tx,
      List.mem_cons, List.mem_singleton, List.not_mem_nil, or_false] at hc <;>
    (rcases hc with rfl | rfl <;> exact ⟨rfl, fun h => h⟩)

/-- C5 witness: leg 1 of the late attempt carries deadline start + 60 and,
being submitted at attempt start, its deadline is still in the future. -/
theorem deadline_computed_once_at_start_inst :
    ({ leg := .leg1, router := .uniswap, swapAmountWei := 5 * 10 ^ 18,
       boundAmount := 1990000000000000000, deadline := 60, submitTime := 0,
       gasPriceWei := 0 } : SwapCall).deadline = execEnvLate.startTime + 60 ∧
    ({ leg := .leg1, router := .uniswap, swapAmountWei := 5 * 10 ^ 18,
       boundAmount := 1990000000000000000, deadline := 60, submitTime := 0,
       gasPriceWei := 0 } : SwapCall).submitTime <
      ({ leg := .leg1, router := .uniswap, swapAmountWei := 5 * 10 ^ 18,
         boundAmount := 1990000000000000000, deadline := 60, submitTime := 0,
         gasPriceWei := 0 } : SwapCall).deadline := by
  have h := deadline_computed_once_at_start .uniswap .crystal (2 / 5) execEnvLate
    { leg := .leg1, router := .uniswap, swapAmountWei := 5 * 10 ^ 18,
      boundAmount := 1990000000000000000, deadline := 60, submitTime := 0,
      gasPriceWei := 0 }
    (by simp [execute_arbitrage, execute_exact_eth_for_tokens,
          execute_tokens_for_exact_eth, build_and_send_tx, execEnvLate,
          get_dynamic_swap_amount, get_optimized_gas_price, pyint, SLIPPAGE,
          MAX_GAS_PRICE]
        norm_num)
  exact ⟨h.1, h.2 (by norm_num [execEnvLate])⟩

/-- C6: the claim says the size executed equals the size the position sizer
selected from the cycle's deviation.  In the tier-mismatch cycle the
evaluation selects 2 MON (deviation 1/50 is in the smallest tier), decides
Execute, and then passes the high price 10 to `execute_arbitrage`, which
re-derives the size from that argument: both legs are executed with 5 MON,
not the 2 MON the evaluation sized and computed its profit with. -/
theorem executor_resizes_from_price_not_deviation :
    (check_arbitrage_opportunity cycleEnvMismatch).map
        (fun r => (r.swap_amount, r.decision.execCalls.map SwapCall.swapAmountWei)) =
      .ok (2 * 10 ^ 18, [5 * 10 ^ 18, 5 * 10 ^ 18]) ∧
    get_dynamic_swap_amount (|(10 : ℚ) - 99 / 10| / 5) = 2 * 10 ^ 18 ∧
    get_dynamic_swap_amount 10 = 5 * 10 ^ 18 ∧
    (2 * 10 ^ 18 : ℤ) ≠ 5 * 10 ^ 18 := by
  have habs : |(1 : ℚ) / 10| = 1 / 10 := abs_of_nonneg (by norm_num)
  refine ⟨?_, ?_, ?_, by norm_num⟩
  · rw [check_mismatch_eval]
    simp only [Except.map, mismatchOutcome, Decision.execCalls]
    simp [execute_arbitrage, execute_exact_eth_for_tokens,
      execute_tokens_for_exact_eth, build_and_send_tx, execEnvA,
      get_dynamic_swap_amount]
    norm_num
  · unfold get_dynamic_swap_amount
    norm_num [habs]
  · unfold get_dynamic_swap_amount
    norm_num
